import Mathlib

/-!
Shallow embedding of the `Renderer` SDK wrapper (Creatomate video-preview demo).

The wrapper marshals method calls to `postMessage` commands sent into an iframe
and settles pending promises from reply messages. We model:
  * JavaScript values crossing the message channel (`JsValue`), with JS
    truthiness and `typeof`-object classification;
  * the wrapper instance state (`Renderer`): mode, readiness flag, state
    mirror, UUID-keyed pending-promise table, listener/iframe resources;
  * observable actions as an explicit effect list (`Effect`): posted messages,
    promise settlements, callback invocations;
  * `_sendCommand` (throwing embedded as `Except.error`), `_handleMessage`
    (reply correlation and event dispatch), `dispose`, and the tree helpers
    `findElement` over nested `ElementState` values.
-/

namespace Creatomate

/-- JavaScript values as they appear on the message channel. -/
inductive JsValue where
  | undefined
  | null
  | bool (b : Bool)
  | num (n : Int)
  | str (s : String)
  | arr (items : List JsValue)
  | obj (fields : List (String × JsValue))

/-- JavaScript truthiness (`if (x)`). NaN is not modelled; `num` is integral. -/
def truthy : JsValue → Bool
  | .undefined => false
  | .null => false
  | .bool b => b
  | .num n => n != 0
  | .str s => s != ""
  | .arr _ => true
  | .obj _ => true

/-- Does `typeof x === 'object'` hold (true for objects, arrays and null)? -/
def isObjectTypeof : JsValue → Bool
  | .null => true
  | .arr _ => true
  | .obj _ => true
  | _ => false

mutual

/-- String coercion, as performed by property-key access and `new Error(x)`:
arrays join their items with commas (null/undefined items become empty). -/
def jsToString : JsValue → String
  | .undefined => "undefined"
  | .null => "null"
  | .bool true => "true"
  | .bool false => "false"
  | .num n => toString n
  | .str s => s
  | .arr items => String.intercalate "," (jsItemStrings items)
  | .obj _ => "[object Object]"

/-- String coercions of array items (`Array.prototype.join` semantics). -/
def jsItemStrings : List JsValue → List String
  | [] => []
  | .undefined :: rest => "" :: jsItemStrings rest
  | .null :: rest => "" :: jsItemStrings rest
  | v :: rest => jsToString v :: jsItemStrings rest

end

/-- Property read `v[k]`: `undefined` when the key is absent or `v` has no fields. -/
def getField (v : JsValue) (k : String) : JsValue :=
  match v with
  | .obj fs => (fs.lookup k).getD .undefined
  | _ => .undefined

/-- Rest fields of the destructuring `const { id, message, error, ...args } = data`:
every own field except `id`, `message` and `error` (array indices become keys). -/
def restFields : JsValue → List (String × JsValue)
  | .obj fs => fs.filter fun kv => kv.1 != "id" && kv.1 != "message" && kv.1 != "error"
  | .arr items => (items.enum.map fun iv => (toString iv.1, iv.2)).filter
      fun kv => kv.1 != "id" && kv.1 != "message" && kv.1 != "error"
  | _ => []

/-- Object spread `{ ...fs, k: v }`: overwrite an existing key in place, else append. -/
def setFieldJs (fs : List (String × JsValue)) (k : String) (v : JsValue) :
    List (String × JsValue) :=
  if fs.any fun kv => kv.1 == k then
    fs.map fun kv => if kv.1 == k then (k, v) else kv
  else
    fs ++ [(k, v)]

/-- Object spread `{ ...fs, ...gs }`: later keys win. -/
def spreadFields (fs gs : List (String × JsValue)) : List (String × JsValue) :=
  gs.foldl (fun acc kv => setFieldJs acc kv.1 kv.2) fs

mutual

/-- One round of `JSON.parse(JSON.stringify(v))`: drops `undefined`-valued object
fields, maps `undefined` array items to `null`. Functions are not modelled. -/
def jsonRoundTrip : JsValue → JsValue
  | .obj fs => .obj (jsonFields fs)
  | .arr items => .arr (jsonItems items)
  | v => v

/-- Serialization of object fields: `undefined`-valued fields are dropped. -/
def jsonFields : List (String × JsValue) → List (String × JsValue)
  | [] => []
  | (_, .undefined) :: rest => jsonFields rest
  | (k, v) :: rest => (k, jsonRoundTrip v) :: jsonFields rest

/-- Serialization of array items: `undefined` items become `null`. -/
def jsonItems : List JsValue → List JsValue
  | [] => []
  | .undefined :: rest => .null :: jsonItems rest
  | v :: rest => jsonRoundTrip v :: jsonItems rest

end

/-- Field list of a serialized command message (`JSON.parse(JSON.stringify(msg))`
for an object literal `msg`). -/
def stripMessageFields (fs : List (String × JsValue)) : List (String × JsValue) :=
  match jsonRoundTrip (.obj fs) with
  | .obj gs => gs
  | _ => []

/-- The renderer mode chosen in the constructor (`'player' | 'interactive'`). -/
inductive Mode where
  | player
  | interactive
deriving DecidableEq

/-- String form of a mode, as embedded into messages and the iframe URL. -/
def modeString : Mode → String
  | .player => "player"
  | .interactive => "interactive"

/-- Which of the optional callback fields (`onReady`, `onPlay`, ...) the user has
assigned. -/
structure Callbacks where
  onReady : Bool
  onLoad : Bool
  onLoadComplete : Bool
  onPlay : Bool
  onPause : Bool
  onTimeChange : Bool
  onToolChange : Bool
  onActiveElementsChange : Bool
  onStateChange : Bool
deriving DecidableEq

/-- Observable actions of the wrapper. A pending promise is identified by the
`Nat` handle stored in the pending table; it settles only via a
`settleResolve`/`settleReject` effect naming its handle. -/
inductive Effect where
  | post (data : JsValue)
  | settleResolve (fut : Nat) (value : JsValue)
  | settleReject (fut : Nat) (message : String)
  | callback (name : String) (arg : Option JsValue)

/-- The promise handle an effect settles, if any. -/
def Effect.settles : Effect → Option Nat
  | .settleResolve fut _ => some fut
  | .settleReject fut _ => some fut
  | _ => none

/-- State of a `Renderer` instance. `pending` embeds `_pendingPromises`
(identifier to promise handle); `nextIdNum` feeds the UUID supply;
`nextFuture` allocates promise handles. -/
structure Renderer where
  mode : Mode
  ready : Bool
  state : JsValue
  pending : List (String × Nat)
  nextIdNum : Nat
  nextFuture : Nat
  listenerAttached : Bool
  iframeInDom : Bool
  iframeSrc : String
  contentWindowPresent : Bool
  callbacks : Callbacks

/-- The `uuid()` supply: an opaque unique nonempty token per call, modelled by a
counter. -/
def uuidSupply (n : Nat) : String := "uuid-" ++ toString n

/-- Constructor: mode recorded, iframe created with the embed URL and appended,
message listener registered, not yet ready, empty pending table. -/
def Renderer.create (mode : Mode) (publicToken : String) (callbacks : Callbacks) :
    Renderer :=
  { mode := mode
    ready := false
    state := .undefined
    pending := []
    nextIdNum := 0
    nextFuture := 0
    listenerAttached := true
    iframeInDom := true
    iframeSrc := "https://creatomate.com/embed?mode=" ++ modeString mode
      ++ "&token=" ++ publicToken
    contentWindowPresent := true
    callbacks := callbacks }

/-- Message of the synchronous throw in `_sendCommand` before readiness. -/
def notReadyMessage : String :=
  "The SDK is not yet ready. Please wait for the onReady event before calling any methods."

/-- Embeds `_sendCommand`: throws (as `Except.error`) when not ready; otherwise
generates a fresh identifier, posts `{ id, ...JSON.parse(JSON.stringify(message)),
...payload }` to the iframe's content window (when present), and registers a
pending promise under the identifier. -/
def Renderer.sendCommand (r : Renderer) (message : List (String × JsValue))
    (payload : List (String × JsValue)) : Except String (Renderer × List Effect) :=
  if !r.ready then
    .error notReadyMessage
  else
    let id := uuidSupply r.nextIdNum
    let posted := JsValue.obj
      (spreadFields (spreadFields [("id", .str id)] (stripMessageFields message)) payload)
    .ok ({ r with
            nextIdNum := r.nextIdNum + 1
            nextFuture := r.nextFuture + 1
            pending := r.pending ++ [(id, r.nextFuture)] },
         if r.contentWindowPresent then [Effect.post posted] else [])

/-- Removal `delete this._pendingPromises[id]`. -/
def removeKey (ps : List (String × Nat)) (k : String) : List (String × Nat) :=
  ps.filter fun kv => kv.1 ≠ k

/-- Reply branch of `_handleMessage` (the payload carried a truthy `id`): look up
the pending promise; settle it (reject on truthy `error`, else resolve with the
rest fields) and delete the entry; unknown identifiers are dropped. -/
def Renderer.handleReply (r : Renderer) (idv errv : JsValue)
    (args : List (String × JsValue)) : Renderer × List Effect :=
  match r.pending.lookup (jsToString idv) with
  | some fut =>
      ({ r with pending := removeKey r.pending (jsToString idv) },
       [if truthy errv then Effect.settleReject fut (jsToString errv)
        else Effect.settleResolve fut (.obj args)])
  | none => (r, [])

/-- Event branch of `_handleMessage` (no truthy `id`): switch on `message`. -/
def Renderer.handleEvent (r : Renderer) (message : JsValue)
    (args : List (String × JsValue)) : Renderer × List Effect :=
  match message with
  | .str "onReady" =>
      let r1 : Renderer := { r with ready := true }
      let cb : List Effect :=
        if r.callbacks.onReady then [Effect.callback "onReady" none] else []
      match r1.sendCommand
          [("message", .str "setMode"), ("mode", .str (modeString r.mode))] [] with
      | .ok (r2, effs) => (r2, effs ++ cb)
      | .error _ => (r1, cb)
  | .str "onLoad" =>
      (r, if r.callbacks.onLoad then [Effect.callback "onLoad" none] else [])
  | .str "onLoadComplete" =>
      (r, if r.callbacks.onLoadComplete then [Effect.callback "onLoadComplete" none] else [])
  | .str "onPlay" =>
      (r, if r.callbacks.onPlay then [Effect.callback "onPlay" none] else [])
  | .str "onPause" =>
      (r, if r.callbacks.onPause then [Effect.callback "onPause" none] else [])
  | .str "onTimeChange" =>
      (r, if r.callbacks.onTimeChange then
        [Effect.callback "onTimeChange" (some ((args.lookup "time").getD .undefined))] else [])
  | .str "onToolChange" =>
      (r, if r.callbacks.onToolChange then
        [Effect.callback "onToolChange" (some ((args.lookup "tool").getD .undefined))] else [])
  | .str "onActiveElementsChange" =>
      (r, if r.callbacks.onActiveElementsChange then
        [Effect.callback "onActiveElementsChange"
          (some ((args.lookup "elementIds").getD .undefined))] else [])
  | .str "onStateChange" =>
      ({ r with state := (args.lookup "state").getD .undefined },
       if r.callbacks.onStateChange then
        [Effect.callback "onStateChange" (some ((args.lookup "state").getD .undefined))]
       else [])
  | _ => (r, [])

/-- Embeds `_handleMessage`: drop falsy or non-object payloads; destructure
`{ id, message, error, ...args }`; replies (truthy `id`) settle pending
promises, everything else dispatches as a named event. -/
def Renderer.handleMessage (r : Renderer) (data : JsValue) : Renderer × List Effect :=
  if !truthy data || !isObjectTypeof data then
    (r, [])
  else if truthy (getField data "id") then
    r.handleReply (getField data "id") (getField data "error") (restFields data)
  else
    r.handleEvent (getField data "message") (restFields data)

/-- Embeds `dispose`: remove the message listener, detach the iframe and blank
its source, reset the pending table — settling nothing. -/
def Renderer.dispose (r : Renderer) : Renderer × List Effect :=
  ({ r with
      listenerAttached := false
      iframeInDom := false
      iframeSrc := ""
      pending := [] },
   [])

/-- Message of the wrapping error thrown by `loadTemplate` on command failure. -/
def loadTemplateWrapMessage (errMessage : String) : String :=
  "Failed to load template: " ++ errMessage

/-- A state node as consumed by the tree helpers: a `source` object plus an
optional `elements` array of the same shape (both `RendererState` and
`ElementState` values fit). `elements = none` embeds an absent (falsy) array;
`elements = some es` embeds a present (truthy, possibly empty) array. -/
inductive ElementState where
  | mk (source : List (String × JsValue)) (elements : Option (List ElementState))

/-- Projection of the `elements` property. -/
def ElementState.elements : ElementState → Option (List ElementState)
  | .mk _ es => es

/-- Core of `findElement` restricted to a list of sibling elements: test each
element in order; on a hit return it; otherwise, when the element carries an
`elements` array, search its subtree before moving to the next sibling. -/
def findInList (p : ElementState → Bool) : List ElementState → Option ElementState
  | [] => none
  | e :: rest =>
    if p e then some e
    else
      match e with
      | .mk _ none => findInList p rest
      | .mk _ (some es) =>
        match findInList p es with
        | some found => some found
        | none => findInList p rest

/-- Embeds `findElement(predicate, state)`: when the state is present and its
`elements` array is truthy, scan it recursively; otherwise `undefined`. -/
def findElement (p : ElementState → Bool) (state : Option ElementState) :
    Option ElementState :=
  match state with
  | none => none
  | some (.mk _ none) => none
  | some (.mk _ (some es)) => findInList p es

/-- Depth-first preorder listing of the elements reachable from a sibling list:
each element precedes its own children, and a node's children precede that
node's later siblings. -/
def preorderList : List ElementState → List ElementState
  | [] => []
  | .mk src none :: rest => .mk src none :: preorderList rest
  | .mk src (some es) :: rest =>
      .mk src (some es) :: (preorderList es ++ preorderList rest)

/-- Depth-first preorder listing of the elements nested inside a state node
(the node itself is not listed). -/
def preorderOf (state : ElementState) : List ElementState :=
  match state with
  | .mk _ none => []
  | .mk _ (some es) => preorderList es

/-- Predicate on elements matching a given `name` field in the source. -/
def matchesName (n : String) (e : ElementState) : Bool :=
  match e with
  | .mk src _ =>
    match src.lookup "name" with
    | some (.str s) => s == n
    | _ => false

/-- A leaf element named D. -/
def elemD : ElementState := .mk [("name", .str "D"), ("type", .str "text")] none

/-- A leaf element named B. -/
def elemB : ElementState := .mk [("name", .str "B"), ("type", .str "text")] none

/-- A composition named C containing D. -/
def elemC : ElementState :=
  .mk [("name", .str "C"), ("type", .str "composition")] (some [elemD])

/-- A composition named A containing B and C. -/
def elemA : ElementState :=
  .mk [("name", .str "A"), ("type", .str "composition")] (some [elemB, elemC])

/-- A snapshot whose nested elements are A→[B, C→[D]]. -/
def snapshotABCD : ElementState := .mk [("width", .num 1920)] (some [elemA])

/-- A root state named R whose only nested element is B; used to show the root
itself is never tested by `findElement`. -/
def rootNamedR : ElementState := .mk [("name", .str "R")] (some [elemB])

/-- A sample renderer fixture: ready, all callbacks assigned, one pending
command under identifier `"X"` with promise handle `0`. -/
def rendererW : Renderer :=
  { Renderer.create .player "public-token"
      ⟨true, true, true, true, true, true, true, true, true⟩ with
      ready := true
      nextFuture := 1
      pending := [("X", 0)] }

/-! Helper lemmas shared by the claim theorems. -/

/-- Looking up a key just removed from the pending table yields nothing. -/
theorem lookup_removeKey_self (ps : List (String × Nat)) (k : String) :
    (removeKey ps k).lookup k = none := by
  induction ps with
  | nil => rfl
  | cons kv rest ih =>
    simp only [removeKey, List.filter_cons] at ih ⊢
    by_cases h : kv.1 = k
    · simpa [h] using ih
    · have hbeq : (k == kv.1) = false := beq_eq_false_iff_ne.mpr (Ne.symm h)
      simpa [h, List.lookup, hbeq] using ih

/-- String coercion is the identity on strings. -/
theorem jsToString_str (s : String) : jsToString (.str s) = s := by
  rw [jsToString.eq_def]

/-- Nonempty strings are truthy. -/
theorem truthy_str_of_ne (s : String) (h : s ≠ "") : truthy (.str s) = true := by
  simp [truthy, h]

/-- The search over a sibling list returns the first preorder match. -/
theorem findInList_eq_find? (p : ElementState → Bool) (l : List ElementState) :
    findInList p l = (preorderList l).find? p := by
  induction l using preorderList.induct with
  | case1 => simp [findInList, preorderList]
  | case2 src rest ih =>
      simp only [findInList, preorderList, List.find?_cons]
      cases h : p (.mk src none) <;> simp [h, ih]
  | case3 src es rest ih1 ih2 =>
      simp only [findInList, preorderList, List.find?_cons, List.find?_append]
      cases h : p (.mk src (some es)) <;> simp [h, ih1, ih2]
      cases (preorderList es).find? p <;> simp [Option.or]

/-- Reply dispatch: an inbound object whose `id` field is a nonempty string
found in the pending table settles that entry (reject on truthy error, else
resolve with the rest fields) and removes it from the table. -/
theorem handleMessage_reply_found (r : Renderer) (fields : List (String × JsValue))
    (X : String) (fut : Nat) (hX : X ≠ "")
    (hid : fields.lookup "id" = some (.str X))
    (hp : r.pending.lookup X = some fut) :
    r.handleMessage (.obj fields) =
      ({ r with pending := removeKey r.pending X },
       [if truthy (getField (.obj fields) "error")
        then .settleReject fut (jsToString (getField (.obj fields) "error"))
        else .settleResolve fut (.obj (restFields (.obj fields)))]) := by
  have h1 : getField (.obj fields) "id" = .str X := by simp [getField, hid]
  have hg1 : truthy (.obj fields) = true := rfl
  have hg2 : isObjectTypeof (.obj fields) = true := rfl
  simp only [Renderer.handleMessage, Renderer.handleReply, h1, hg1, hg2,
    jsToString_str, truthy_str_of_ne X hX, Bool.not_true, Bool.or_self,
    Bool.false_or, if_false, if_true, hp]
  rfl

/-- Reply dispatch: an inbound object with a truthy identifier matching no
pending entry leaves the state unchanged and has no effect. -/
theorem handleMessage_reply_missing (r : Renderer) (fields : List (String × JsValue))
    (idv : JsValue) (hid : fields.lookup "id" = some idv) (htr : truthy idv = true)
    (hp : r.pending.lookup (jsToString idv) = none) :
    r.handleMessage (.obj fields) = (r, []) := by
  have h1 : getField (.obj fields) "id" = idv := by simp [getField, hid]
  have hg1 : truthy (.obj fields) = true := rfl
  have hg2 : isObjectTypeof (.obj fields) = true := rfl
  simp only [Renderer.handleMessage, Renderer.handleReply, h1, hg1, hg2, htr,
    Bool.not_true, Bool.or_self, Bool.false_or, if_false, if_true, hp]
  rfl

/-- Event dispatch: an inbound object whose `id` field is falsy is routed to
the event switch with the `message` field and the rest fields. -/
theorem handleMessage_event (r : Renderer) (fields : List (String × JsValue))
    (hid : truthy (getField (.obj fields) "id") = false) :
    r.handleMessage (.obj fields) =
      r.handleEvent (getField (.obj fields) "message") (restFields (.obj fields)) := by
  have hg1 : truthy (.obj fields) = true := rfl
  have hg2 : isObjectTypeof (.obj fields) = true := rfl
  simp only [Renderer.handleMessage, hg1, hg2, hid, Bool.not_true, Bool.or_self,
    if_false, Bool.false_eq_true]

/-- Serialization is the identity on strings. -/
theorem jsonRoundTrip_str (s : String) : jsonRoundTrip (.str s) = .str s := by
  rw [jsonRoundTrip.eq_def]

/-- Serialization keeps a leading string-valued field. -/
theorem jsonFields_cons_str (k s : String) (rest : List (String × JsValue)) :
    jsonFields ((k, .str s) :: rest) = (k, .str s) :: jsonFields rest := by
  rw [jsonFields.eq_def]
  simp [jsonRoundTrip_str]

/-- The serialized `setMode` command message is unchanged by the JSON round
trip. -/
theorem stripMessageFields_setMode (m : String) :
    stripMessageFields [("message", .str "setMode"), ("mode", .str m)] =
      [("message", .str "setMode"), ("mode", .str m)] := by
  simp only [stripMessageFields, jsonRoundTrip, jsonFields_cons_str]
  rw [jsonFields.eq_def]

/-- Spreading the serialized `setMode` message into the identifier object
appends its two fields. -/
theorem spread_setMode (idv mv : JsValue) :
    spreadFields (spreadFields [("id", idv)]
        [("message", .str "setMode"), ("mode", mv)]) [] =
      [("id", idv), ("message", .str "setMode"), ("mode", mv)] := rfl

/-- Sending a command while ready succeeds: a fresh identifier is drawn from
the supply, the pending entry is appended, and the merged message is posted
when the content window is present. -/
theorem sendCommand_ready_eq (r : Renderer) (message payload : List (String × JsValue))
    (h : r.ready = true) :
    r.sendCommand message payload = .ok
      ({ r with
          nextIdNum := r.nextIdNum + 1
          nextFuture := r.nextFuture + 1
          pending := r.pending ++ [(uuidSupply r.nextIdNum, r.nextFuture)] },
       if r.contentWindowPresent then
         [Effect.post (.obj (spreadFields
           (spreadFields [("id", .str (uuidSupply r.nextIdNum))]
             (stripMessageFields message)) payload))]
       else []) := by
  simp [Renderer.sendCommand, h]

set_option maxHeartbeats 1000000 in
/-- `_handleMessage` never changes the stored mode. -/
theorem handleMessage_preserves_mode (r : Renderer) (data : JsValue) :
    ((r.handleMessage data).1).mode = r.mode := by
  unfold Renderer.handleMessage
  split
  · rfl
  split
  · unfold Renderer.handleReply
    split <;> rfl
  · simp only [Renderer.handleEvent]
    split
    · rw [sendCommand_ready_eq _ _ _ rfl]
    all_goals rfl

/-! Claim theorems. -/

/-- C2: invoking `_sendCommand` while the ready flag is false throws
synchronously with the not-ready message (embedded as `Except.error`),
returning no successor state and no effects: nothing is posted to the embed
and no pending entry is added, so the wrapper's state is unchanged. -/
theorem sendCommand_before_ready_fails (r : Renderer)
    (message payload : List (String × JsValue)) (h : r.ready = false) :
    r.sendCommand message payload = .error notReadyMessage := by
  simp [Renderer.sendCommand, h]

/-- C2 witness: a freshly constructed renderer is not ready, and sending the
`play` command fails with the not-ready error. -/
theorem sendCommand_before_ready_fails_witness :
    Renderer.sendCommand
        (Renderer.create .player "public-token"
          ⟨true, true, true, true, true, true, true, true, true⟩)
        [("message", .str "play")] []
      = .error notReadyMessage :=
  sendCommand_before_ready_fails _ _ _ rfl

/-- C5: `findElement` returns the first element, in depth-first preorder over
the `elements` arrays (each element tested before its own children, a node's
children visited before that node's later siblings), satisfying the predicate,
and `none` when no element satisfies it; on the snapshot with nested elements
A→[B, C→[D]], a predicate matching only D yields D and a predicate matching
nothing yields `none`. -/
theorem findElement_first_match_preorder :
    (∀ (p : ElementState → Bool) (s : ElementState),
        findElement p (some s) = (preorderOf s).find? p)
    ∧ (∀ p : ElementState → Bool, findElement p none = none)
    ∧ findElement (matchesName "D") (some snapshotABCD) = some elemD
    ∧ findElement (matchesName "Z") (some snapshotABCD) = none := by
  have key : ∀ (p : ElementState → Bool) (s : ElementState),
      findElement p (some s) = (preorderOf s).find? p := by
    intro p s
    cases s with
    | mk src es =>
      cases es with
      | none => simp [findElement, preorderOf]
      | some l => simp [findElement, preorderOf, findInList_eq_find?]
  refine ⟨key, fun p => by simp [findElement], ?_, ?_⟩
  · rw [key]
    simp [preorderOf, snapshotABCD, preorderList, elemA, elemB, elemC, elemD,
      matchesName]
  · rw [key]
    simp [preorderOf, snapshotABCD, preorderList, elemA, elemB, elemC, elemD,
      matchesName]

/-- C10: `findElement` never applies the predicate to the root state passed to
it, only to members of `elements` arrays: when every element nested inside the
root fails the predicate, the result is `none`, even though the predicate
holds for the root itself. -/
theorem findElement_never_tests_root (p : ElementState → Bool) (s : ElementState)
    (hroot : p s = true) (hnone : ∀ x ∈ preorderOf s, p x = false) :
    findElement p (some s) = none := by
  cases s with
  | mk src es =>
    cases es with
    | none => simp [findElement]
    | some l =>
      simp only [findElement, findInList_eq_find?]
      rw [List.find?_eq_none]
      intro x hx
      have hfalse := hnone x (by simpa [preorderOf] using hx)
      simp [hfalse]

/-- C10 witness: a predicate matching only the root name R finds nothing in
the root's subtree. -/
theorem findElement_never_tests_root_witness :
    matchesName "R" rootNamedR = true
    ∧ findElement (matchesName "R") (some rootNamedR) = none := by
  refine ⟨by simp [matchesName, rootNamedR], ?_⟩
  refine findElement_never_tests_root _ _ (by simp [matchesName, rootNamedR]) ?_
  intro x hx
  simp only [preorderOf, rootNamedR, elemB, preorderList] at hx
  simp at hx
  subst hx
  simp [matchesName, elemB]

/-- C1: a reply carrying the identifier of a pending command settles exactly
that one pending promise and removes the entry from the pending table; a
second reply with the same identifier afterwards settles nothing and leaves
the state unchanged (duplicate replies are no-ops). -/
theorem reply_settles_exactly_once (r : Renderer) (fields : List (String × JsValue))
    (X : String) (fut : Nat) (hX : X ≠ "")
    (hid : fields.lookup "id" = some (.str X))
    (hp : r.pending.lookup X = some fut) :
    ∃ eff : Effect,
      r.handleMessage (.obj fields)
        = ({ r with pending := removeKey r.pending X }, [eff])
      ∧ eff.settles = some fut
      ∧ (removeKey r.pending X).lookup X = none
      ∧ Renderer.handleMessage { r with pending := removeKey r.pending X } (.obj fields)
          = ({ r with pending := removeKey r.pending X }, []) := by
  refine ⟨_, handleMessage_reply_found r fields X fut hX hid hp, ?_,
    lookup_removeKey_self r.pending X, ?_⟩
  · cases htr : truthy (getField (.obj fields) "error") <;>
      simp [htr, Effect.settles]
  · exact handleMessage_reply_missing _ fields (.str X) hid (truthy_str_of_ne X hX)
      (by rw [jsToString_str]; exact lookup_removeKey_self r.pending X)

/-- C1 witness: the fixture's pending command "X" settles exactly once on the
reply `{id: "X", value: 42}` and the duplicate reply is a no-op. -/
theorem reply_settles_exactly_once_witness :
    ∃ eff : Effect,
      Renderer.handleMessage rendererW (.obj [("id", .str "X"), ("value", .num 42)])
        = ({ rendererW with pending := removeKey rendererW.pending "X" }, [eff])
      ∧ eff.settles = some 0
      ∧ (removeKey rendererW.pending "X").lookup "X" = none
      ∧ Renderer.handleMessage { rendererW with pending := removeKey rendererW.pending "X" }
          (.obj [("id", .str "X"), ("value", .num 42)])
          = ({ rendererW with pending := removeKey rendererW.pending "X" }, []) :=
  reply_settles_exactly_once rendererW _ "X" 0 (by decide) rfl rfl

/-- C3 (amended): a reply whose `error` field is a truthy (nonempty) string m
for a pending command rejects that command's promise with message m, which
contains m, and the per-command wrapper of `loadTemplate` prepends its
descriptive prefix, still containing m; the error branch is taken whenever the
reply carries a truthy error value, while a falsy error value (such as the
empty string) takes the success branch instead. -/
theorem error_reply_rejects_with_message (r : Renderer) (X m : String) (fut : Nat)
    (hX : X ≠ "") (hm : m ≠ "")
    (hp : r.pending.lookup X = some fut) :
    r.handleMessage (.obj [("id", .str X), ("error", .str m)]) =
      ({ r with pending := removeKey r.pending X }, [Effect.settleReject fut m])
    ∧ (∃ pre post : String, m = pre ++ m ++ post)
    ∧ (∃ pre post : String, loadTemplateWrapMessage m = pre ++ m ++ post) := by
  refine ⟨?_, ⟨"", "", by simp⟩,
    ⟨"Failed to load template: ", "", by simp [loadTemplateWrapMessage]⟩⟩
  rw [handleMessage_reply_found r [("id", .str X), ("error", .str m)] X fut hX rfl hp]
  have he : getField (.obj [("id", JsValue.str X), ("error", JsValue.str m)]) "error"
      = .str m := rfl
  rw [he, jsToString_str]
  simp [truthy_str_of_ne m hm]

/-- C3 witness: the reply `{id: "X", error: "bad input"}` rejects the
fixture's pending command with a message containing "bad input". -/
theorem error_reply_rejects_with_message_witness :
    Renderer.handleMessage rendererW (.obj [("id", .str "X"), ("error", .str "bad input")]) =
      ({ rendererW with pending := removeKey rendererW.pending "X" },
       [Effect.settleReject 0 "bad input"])
    ∧ (∃ pre post : String, "bad input" = pre ++ "bad input" ++ post)
    ∧ (∃ pre post : String,
        loadTemplateWrapMessage "bad input" = pre ++ "bad input" ++ post) :=
  error_reply_rejects_with_message rendererW "X" "bad input" 0 (by decide) (by decide) rfl

/-- C3 counterexample: the reply `{id: "X", error: ""}` carries an error field,
yet the success branch is taken: the pending promise resolves with the empty
object and nothing is rejected, refuting "the error branch is taken whenever
the reply carries an error field". -/
theorem falsy_error_reply_takes_success_branch :
    Renderer.handleMessage rendererW (.obj [("id", .str "X"), ("error", .str "")]) =
      ({ rendererW with pending := removeKey rendererW.pending "X" },
       [Effect.settleResolve 0 (.obj [])]) := by
  rw [handleMessage_reply_found rendererW [("id", .str "X"), ("error", .str "")]
    "X" 0 (by decide) rfl rfl]
  rfl

/-- C4: a reply carrying a matching identifier and no error field resolves the
matching pending promise with the object of all payload fields except `id`,
`message` and `error`. -/
theorem reply_without_error_resolves (r : Renderer) (fields : List (String × JsValue))
    (X : String) (fut : Nat) (hX : X ≠ "")
    (hid : fields.lookup "id" = some (.str X))
    (herr : fields.lookup "error" = none)
    (hp : r.pending.lookup X = some fut) :
    r.handleMessage (.obj fields) =
      ({ r with pending := removeKey r.pending X },
       [Effect.settleResolve fut
          (.obj (fields.filter fun kv =>
            kv.1 != "id" && kv.1 != "message" && kv.1 != "error"))]) := by
  rw [handleMessage_reply_found r fields X fut hX hid hp]
  have he : getField (.obj fields) "error" = .undefined := by simp [getField, herr]
  rw [he]
  simp [truthy, restFields]

/-- C4 witness: the reply `{id: "X", value: 42}` resolves the fixture's pending
command with `{value: 42}`. -/
theorem reply_without_error_resolves_witness :
    Renderer.handleMessage rendererW (.obj [("id", .str "X"), ("value", .num 42)]) =
      ({ rendererW with pending := removeKey rendererW.pending "X" },
       [Effect.settleResolve 0 (.obj [("value", .num 42)])]) := by
  rw [reply_without_error_resolves rendererW [("id", .str "X"), ("value", .num 42)]
    "X" 0 (by decide) rfl rfl rfl]
  rfl

/-- C7: an inbound message whose payload is falsy or not an object, and a reply
whose truthy identifier matches no still-pending command, leave the renderer
state (pending table, ready flag, state mirror) unchanged and produce no
effects: no promise settles and no callback runs. -/
theorem malformed_and_unmatched_messages_dropped :
    (∀ (r : Renderer) (data : JsValue),
        truthy data = false ∨ isObjectTypeof data = false →
        r.handleMessage data = (r, []))
    ∧ (∀ (r : Renderer) (fields : List (String × JsValue)) (idv : JsValue),
        fields.lookup "id" = some idv → truthy idv = true →
        r.pending.lookup (jsToString idv) = none →
        r.handleMessage (.obj fields) = (r, [])) := by
  constructor
  · intro r data h
    rcases h with h | h <;> simp [Renderer.handleMessage, h]
  · intro r fields idv hid htr hp
    exact handleMessage_reply_missing r fields idv hid htr hp

/-- C7 witness: a null payload, a string payload and a reply with the unknown
identifier "Y" are all dropped by the fixture without any effect. -/
theorem malformed_and_unmatched_messages_dropped_witness :
    Renderer.handleMessage rendererW .null = (rendererW, [])
    ∧ Renderer.handleMessage rendererW (.str "hello") = (rendererW, [])
    ∧ Renderer.handleMessage rendererW (.obj [("id", .str "Y")]) = (rendererW, []) :=
  ⟨malformed_and_unmatched_messages_dropped.1 rendererW .null (Or.inl rfl),
   malformed_and_unmatched_messages_dropped.1 rendererW (.str "hello") (Or.inr rfl),
   malformed_and_unmatched_messages_dropped.2 rendererW [("id", .str "Y")] (.str "Y")
     rfl rfl (by rw [jsToString_str]; rfl)⟩

/-- C6: the event message `{message: "onPlay"}` invokes the registered onPlay
callback with no argument exactly once and changes no state; an event message
whose name is not one of the recognized event names produces no observable
effect: no callback is invoked and no state changes. -/
theorem event_onPlay_and_unknown_ignored (r : Renderer)
    (hcb : r.callbacks.onPlay = true) :
    r.handleMessage (.obj [("message", .str "onPlay")])
      = (r, [Effect.callback "onPlay" none])
    ∧ ∀ name : String,
        name ∉ (["onReady", "onLoad", "onLoadComplete", "onPlay", "onPause",
          "onTimeChange", "onToolChange", "onActiveElementsChange",
          "onStateChange"] : List String) →
        r.handleMessage (.obj [("message", .str name)]) = (r, []) := by
  constructor
  · rw [handleMessage_event r [("message", .str "onPlay")] rfl]
    have hm : getField (.obj [("message", JsValue.str "onPlay")]) "message"
        = .str "onPlay" := rfl
    rw [hm]
    simp only [Renderer.handleEvent, hcb, if_true]
  · intro name hname
    simp only [List.mem_cons, List.not_mem_nil, or_false, not_or] at hname
    rw [handleMessage_event r [("message", .str name)] rfl]
    have hm : getField (.obj [("message", JsValue.str name)]) "message"
        = .str name := rfl
    rw [hm]
    simp only [Renderer.handleEvent]
    split <;> simp_all

/-- C6 witness: on the fixture, `{message: "onPlay"}` fires the play callback
once and the unknown event name "onSomethingElse" does nothing. -/
theorem event_onPlay_and_unknown_ignored_witness :
    Renderer.handleMessage rendererW (.obj [("message", .str "onPlay")])
      = (rendererW, [Effect.callback "onPlay" none])
    ∧ Renderer.handleMessage rendererW (.obj [("message", .str "onSomethingElse")])
      = (rendererW, []) :=
  ⟨(event_onPlay_and_unknown_ignored rendererW rfl).1,
   (event_onPlay_and_unknown_ignored rendererW rfl).2 "onSomethingElse" (by decide)⟩

/-- C9: processing the inbound onReady event sets the ready flag to true and
synchronously sends one `setMode` command carrying the constructor-supplied
mode (one posted message, one new pending entry), placed before the
user-registered onReady callback (invoked only if assigned); moreover
`_handleMessage` never changes the stored mode, so the mode sent is the one
from the constructor. -/
theorem onReady_sets_ready_and_sends_setMode (r : Renderer)
    (hcw : r.contentWindowPresent = true) :
    r.handleMessage (.obj [("message", .str "onReady")]) =
      ({ r with
          ready := true
          pending := r.pending ++ [(uuidSupply r.nextIdNum, r.nextFuture)]
          nextIdNum := r.nextIdNum + 1
          nextFuture := r.nextFuture + 1 },
       Effect.post (.obj [("id", .str (uuidSupply r.nextIdNum)),
           ("message", .str "setMode"), ("mode", .str (modeString r.mode))])
         :: (if r.callbacks.onReady then [Effect.callback "onReady" none] else []))
    ∧ ∀ data : JsValue, ((r.handleMessage data).1).mode = r.mode := by
  refine ⟨?_, fun data => handleMessage_preserves_mode r data⟩
  rw [handleMessage_event r [("message", .str "onReady")] rfl]
  have hm : getField (.obj [("message", JsValue.str "onReady")]) "message"
      = .str "onReady" := rfl
  rw [hm]
  simp only [Renderer.handleEvent]
  rw [sendCommand_ready_eq _ _ _ rfl]
  simp only [stripMessageFields_setMode, spread_setMode, hcw, if_true]
  rfl

/-- C9 witness: on the fixture (content window present), the onReady event
yields the ready flag, the posted `setMode` command with the constructor mode
`player`, the new pending entry, and then the onReady callback. -/
theorem onReady_sets_ready_and_sends_setMode_witness :
    Renderer.handleMessage rendererW (.obj [("message", .str "onReady")]) =
      ({ rendererW with
          ready := true
          pending := rendererW.pending ++ [(uuidSupply rendererW.nextIdNum, rendererW.nextFuture)]
          nextIdNum := rendererW.nextIdNum + 1
          nextFuture := rendererW.nextFuture + 1 },
       Effect.post (.obj [("id", .str (uuidSupply rendererW.nextIdNum)),
           ("message", .str "setMode"), ("mode", .str (modeString rendererW.mode))])
         :: (if rendererW.callbacks.onReady then [Effect.callback "onReady" none] else []))
    ∧ ((Renderer.handleMessage rendererW (.obj [("id", .str "X")])).1).mode
        = rendererW.mode :=
  ⟨(onReady_sets_ready_and_sends_setMode rendererW rfl).1,
   (onReady_sets_ready_and_sends_setMode rendererW rfl).2 _⟩

/-- C8: `dispose` removes the message listener and the display surface,
empties the pending-command table, and settles nothing: it emits no resolve or
reject effect, so every promise pending before `dispose` is still unsettled
after it. -/
theorem dispose_clears_without_settling (r : Renderer) :
    (r.dispose).1.listenerAttached = false
    ∧ (r.dispose).1.iframeInDom = false
    ∧ (r.dispose).1.pending = []
    ∧ (r.dispose).2 = []
    ∧ ((r.dispose).2.all fun eff => (Effect.settles eff).isNone) = true := by
  simp [Renderer.dispose]

end Creatomate
